import Mathlib

/-!
Verification of the sensor-fusion core: the accelerometer tilt estimator,
the complementary and Kalman orientation filters, and the driver-level
calibration routine.  Floating-point values are modelled as real numbers;
each update takes its timestamp as an explicit argument (the code reads the
clock at the top of the call).  Stateful methods become functions from the
old state to the new state paired with the returned value.
-/

namespace SensorFusion

noncomputable section

/-- Container for one calibrated sensor reading (accel in g, gyro in deg/s). -/
structure SensorData where
  accel_x : ℝ
  accel_y : ℝ
  accel_z : ℝ
  gyro_x : ℝ
  gyro_y : ℝ
  gyro_z : ℝ
  temp : ℝ

/-- Three-axis orientation in degrees. -/
@[ext]
structure Orientation where
  pitch : ℝ
  roll : ℝ
  yaw : ℝ

/-- Two-argument arctangent with the quadrant conventions of math.atan2. -/
def atan2 (y x : ℝ) : ℝ :=
  if 0 < x then Real.arctan (y / x)
  else if x < 0 then
    (if 0 ≤ y then Real.arctan (y / x) + Real.pi else Real.arctan (y / x) - Real.pi)
  else
    (if 0 < y then Real.pi / 2 else if y < 0 then -(Real.pi / 2) else 0)

/-- Radian-to-degree conversion, as math.degrees. -/
def degrees (r : ℝ) : ℝ := r * 180 / Real.pi

/-- First normalization loop: while yaw > 180, yaw -= 360. -/
def wrapDown (y : ℝ) : ℝ :=
  if h : y > 180 then wrapDown (y - 360) else y
termination_by (Int.ceil ((y - 180) / 360)).toNat
decreasing_by
  have h1 : (0:ℝ) < (y - 180) / 360 := div_pos (by linarith) (by norm_num)
  have h2 : 0 < Int.ceil ((y - 180) / 360) := Int.ceil_pos.mpr h1
  have h3 : (y - 360 - 180) / 360 = (y - 180) / 360 - 1 := by ring
  rw [h3, Int.ceil_sub_one]
  omega

/-- Second normalization loop: while yaw < -180, yaw += 360. -/
def wrapUp (y : ℝ) : ℝ :=
  if h : y < -180 then wrapUp (y + 360) else y
termination_by (Int.ceil ((-180 - y) / 360)).toNat
decreasing_by
  have h1 : (0:ℝ) < (-180 - y) / 360 := div_pos (by linarith) (by norm_num)
  have h2 : 0 < Int.ceil ((-180 - y) / 360) := Int.ceil_pos.mpr h1
  have h3 : (-180 - (y + 360)) / 360 = (-180 - y) / 360 - 1 := by ring
  rw [h3, Int.ceil_sub_one]
  omega

/-- The yaw normalization performed at the end of both filter updates. -/
def normalizeYaw (y : ℝ) : ℝ := wrapUp (wrapDown y)

/-- State of the complementary filter: blend weight, current estimate and
the timestamp of the previous update (absent before the first update). -/
structure ComplementaryFilter where
  alpha : ℝ
  orientation : Orientation
  last_time : Option ℝ

/-- ComplementaryFilter.__init__. -/
def mkComplementaryFilter (alpha : ℝ) : ComplementaryFilter :=
  ⟨alpha, ⟨0, 0, 0⟩, none⟩

/-- ComplementaryFilter._accel_angles: pitch and roll from the accelerometer. -/
def accelAngles (d : SensorData) : ℝ × ℝ :=
  (degrees (atan2 d.accel_y (Real.sqrt (d.accel_x ^ 2 + d.accel_z ^ 2))),
   degrees (atan2 (-d.accel_x) d.accel_z))

/-- ComplementaryFilter.update with the clock reading passed explicitly. -/
def ComplementaryFilter.update (f : ComplementaryFilter) (d : SensorData)
    (now : ℝ) : ComplementaryFilter × Orientation :=
  match f.last_time with
  | none =>
      let aa := accelAngles d
      let o : Orientation := ⟨aa.1, aa.2, f.orientation.yaw⟩
      ({ f with orientation := o, last_time := some now }, o)
  | some t =>
      let dt := now - t
      let f1 := { f with last_time := some now }
      if dt ≤ 0 ∨ 1 < dt then (f1, f1.orientation)
      else
        let aa := accelAngles d
        let gyro_pitch := f.orientation.pitch + d.gyro_x * dt
        let gyro_roll := f.orientation.roll + d.gyro_y * dt
        let gyro_yaw := f.orientation.yaw + d.gyro_z * dt
        let o : Orientation :=
          ⟨f.alpha * gyro_pitch + (1 - f.alpha) * aa.1,
           f.alpha * gyro_roll + (1 - f.alpha) * aa.2,
           normalizeYaw gyro_yaw⟩
        ({ f1 with orientation := o }, o)

/-- ComplementaryFilter.reset. -/
def ComplementaryFilter.reset (f : ComplementaryFilter) : ComplementaryFilter :=
  ⟨f.alpha, ⟨0, 0, 0⟩, none⟩

/-- State of the scalar Kalman filter. -/
structure KalmanFilter1D where
  Q : ℝ
  R : ℝ
  P : ℝ
  K : ℝ
  angle : ℝ
  bias : ℝ

/-- KalmanFilter1D.__init__ (defaults 0.001, 0.03, 1.0 at the call sites). -/
def mkKalmanFilter1D (process_noise measurement_noise estimation_error : ℝ) :
    KalmanFilter1D :=
  ⟨process_noise, measurement_noise, estimation_error, 0, 0, 0⟩

/-- KalmanFilter1D.update: predict, compute the gain, correct. -/
def KalmanFilter1D.update (f : KalmanFilter1D) (new_angle new_rate dt : ℝ) :
    KalmanFilter1D × ℝ :=
  let rate := new_rate - f.bias
  let angle1 := f.angle + dt * rate
  let P1 := f.P + f.Q
  let K1 := P1 / (P1 + f.R)
  let angle2 := angle1 + K1 * (new_angle - angle1)
  let P2 := (1 - K1) * P1
  ({ f with P := P2, K := K1, angle := angle2 }, angle2)

/-- State of the 3-axis Kalman orientation filter. -/
structure KalmanFilterOrientation where
  pitch_filter : KalmanFilter1D
  roll_filter : KalmanFilter1D
  yaw : ℝ
  last_time : Option ℝ

/-- KalmanFilterOrientation.__init__: estimation error defaults to 1.0. -/
def mkKalmanFilterOrientation (process_noise measurement_noise : ℝ) :
    KalmanFilterOrientation :=
  ⟨mkKalmanFilter1D process_noise measurement_noise 1,
   mkKalmanFilter1D process_noise measurement_noise 1, 0, none⟩

/-- KalmanFilterOrientation.update with the clock reading passed explicitly. -/
def KalmanFilterOrientation.update (f : KalmanFilterOrientation)
    (d : SensorData) (now : ℝ) : KalmanFilterOrientation × Orientation :=
  match f.last_time with
  | none => ({ f with last_time := some now }, ⟨0, 0, 0⟩)
  | some t =>
      let dt := now - t
      let f1 := { f with last_time := some now }
      if dt ≤ 0 ∨ 1 < dt then
        (f1, ⟨f1.pitch_filter.angle, f1.roll_filter.angle, f1.yaw⟩)
      else
        let accel_pitch := degrees (atan2 d.accel_y
          (Real.sqrt (d.accel_x ^ 2 + d.accel_z ^ 2)))
        let accel_roll := degrees (atan2 (-d.accel_x) d.accel_z)
        let pr := f.pitch_filter.update accel_pitch d.gyro_x dt
        let rr := f.roll_filter.update accel_roll d.gyro_y dt
        let yaw1 := normalizeYaw (f.yaw + d.gyro_z * dt)
        ({ f1 with pitch_filter := pr.1, roll_filter := rr.1, yaw := yaw1 },
         ⟨pr.2, rr.2, yaw1⟩)

/-- KalmanFilterOrientation.reset: fresh 1-axis filters with all defaults. -/
def KalmanFilterOrientation.reset (_f : KalmanFilterOrientation) :
    KalmanFilterOrientation :=
  ⟨mkKalmanFilter1D 0.001 0.03 1, mkKalmanFilter1D 0.001 0.03 1, 0, none⟩

/-- Run the complementary filter over a list of (sample, timestamp) pairs,
collecting the returned orientations. -/
def runCF (f : ComplementaryFilter) : List (SensorData × ℝ) → List Orientation
  | [] => []
  | x :: rest => (f.update x.1 x.2).2 :: runCF (f.update x.1 x.2).1 rest

/-- Run the Kalman orientation filter over a list of (sample, timestamp)
pairs, collecting the returned orientations. -/
def runKFO (f : KalmanFilterOrientation) :
    List (SensorData × ℝ) → List Orientation
  | [] => []
  | x :: rest => (f.update x.1 x.2).2 :: runKFO (f.update x.1 x.2).1 rest

/-- Final state of the Kalman orientation filter after a list of updates. -/
def runKFOstate (f : KalmanFilterOrientation) :
    List (SensorData × ℝ) → KalmanFilterOrientation
  | [] => f
  | x :: rest => runKFOstate (f.update x.1 x.2).1 rest

/-- Final state of a scalar Kalman filter after a list of
(angle, rate, dt) updates. -/
def runKF1D (f : KalmanFilter1D) : List (ℝ × ℝ × ℝ) → KalmanFilter1D
  | [] => f
  | x :: rest => runKF1D (f.update x.1 x.2.1 x.2.2).1 rest

/-- A Kalman orientation state that has never been updated still carries the
zero angles it was constructed with.  Holds for every reachable state. -/
def kfoFreshZero (k : KalmanFilterOrientation) : Prop :=
  k.last_time = none →
    k.pitch_filter.angle = 0 ∧ k.roll_filter.angle = 0 ∧ k.yaw = 0

/-- Test fixture: a stationary sample with gravity on the Z axis. -/
def flatSample : SensorData := ⟨0, 0, 1, 0, 0, 0, 25⟩

/-- Test fixture: a flat sample spinning about Z at 360 degrees per second. -/
def spinSample : SensorData := ⟨0, 0, 1, 0, 0, 360, 25⟩

/-- Test fixture: a complementary filter state with blend weight one half
that has seen an update at time zero. -/
def midFilter : ComplementaryFilter := ⟨1 / 2, ⟨0, 0, 0⟩, some 0⟩

/-- One raw burst read from the device registers (accel, temperature, gyro). -/
structure RawSample where
  ax : ℝ
  ay : ℝ
  az : ℝ
  t : ℝ
  gx : ℝ
  gy : ℝ
  gz : ℝ

/-- The driver state that calibration reads and writes. -/
structure MPUState where
  accel_scale : ℝ
  gyro_scale : ℝ
  accel_offset : ℝ × ℝ × ℝ
  gyro_offset : ℝ × ℝ × ℝ

/-- Per-axis running sums accumulated by the calibration loop. -/
structure CalibSums where
  ax : ℝ
  ay : ℝ
  az : ℝ
  gx : ℝ
  gy : ℝ
  gz : ℝ

/-- One iteration of the calibration loop: add the scaled reading. -/
def calibStep (st : MPUState) (s : CalibSums) (r : RawSample) : CalibSums :=
  ⟨s.ax + r.ax / st.accel_scale, s.ay + r.ay / st.accel_scale,
   s.az + r.az / st.accel_scale, s.gx + r.gx / st.gyro_scale,
   s.gy + r.gy / st.gyro_scale, s.gz + r.gz / st.gyro_scale⟩

/-- Model of MPU6050.calibrate over an explicit list of raw readings: average the
scaled readings and subtract 1 g from the accel Z axis. -/
def MPUState.calibrate (st : MPUState) (rs : List RawSample) : MPUState :=
  let s := rs.foldl (calibStep st) ⟨0, 0, 0, 0, 0, 0⟩
  let n : ℝ := rs.length
  { st with
    accel_offset := (s.ax / n, s.ay / n, s.az / n - 1),
    gyro_offset := (s.gx / n, s.gy / n, s.gz / n) }

end

/-- Unfolding lemma for the first loop when the guard holds. -/
theorem wrapDown_step (y : ℝ) (h : y > 180) : wrapDown y = wrapDown (y - 360) := by
  rw [wrapDown.eq_def]
  exact dif_pos h

/-- Unfolding lemma for the first loop when the guard fails. -/
theorem wrapDown_id (y : ℝ) (h : ¬ y > 180) : wrapDown y = y := by
  rw [wrapDown.eq_def]
  exact dif_neg h

/-- Unfolding lemma for the second loop when the guard holds. -/
theorem wrapUp_step (y : ℝ) (h : y < -180) : wrapUp y = wrapUp (y + 360) := by
  rw [wrapUp.eq_def]
  exact dif_pos h

/-- Unfolding lemma for the second loop when the guard fails. -/
theorem wrapUp_id (y : ℝ) (h : ¬ y < -180) : wrapUp y = y := by
  rw [wrapUp.eq_def]
  exact dif_neg h

/-- The first loop exits at a value of at most 180. -/
theorem wrapDown_le (y : ℝ) : wrapDown y ≤ 180 := by
  induction y using wrapDown.induct with
  | case1 y h ih => rw [wrapDown_step y h]; exact ih
  | case2 y h => rw [wrapDown_id y h]; linarith

/-- The second loop exits at a value of at least minus 180. -/
theorem wrapUp_ge (y : ℝ) : -180 ≤ wrapUp y := by
  induction y using wrapUp.induct with
  | case1 y h ih => rw [wrapUp_step y h]; exact ih
  | case2 y h => rw [wrapUp_id y h]; linarith

/-- The second loop never pushes a value that is at most 180 above 180. -/
theorem wrapUp_le (y : ℝ) (h : y ≤ 180) : wrapUp y ≤ 180 := by
  induction y using wrapUp.induct with
  | case1 y hg ih => rw [wrapUp_step y hg]; exact ih (by linarith)
  | case2 y hg => rw [wrapUp_id y hg]; exact h

/-- Normalized yaw always lands in the closed interval from -180 to 180. -/
theorem normalizeYaw_mem (y : ℝ) :
    -180 ≤ normalizeYaw y ∧ normalizeYaw y ≤ 180 :=
  ⟨wrapUp_ge _, wrapUp_le _ (wrapDown_le y)⟩

/-- A value already inside the closed interval is left unchanged. -/
theorem normalizeYaw_id (y : ℝ) (h1 : -180 ≤ y) (h2 : y ≤ 180) :
    normalizeYaw y = y := by
  rw [normalizeYaw, wrapDown_id y (by linarith), wrapUp_id y (by linarith)]

/-- Every branch of the complementary update returns the orientation stored
in the state it leaves behind. -/
theorem cf_update_out (f : ComplementaryFilter) (d : SensorData) (t : ℝ) :
    (f.update d t).2 = (f.update d t).1.orientation := by
  cases hl : f.last_time with
  | none => simp [ComplementaryFilter.update, hl]
  | some tl =>
      simp only [ComplementaryFilter.update, hl]
      split <;> rfl

/-- Every branch of the complementary update records the current time. -/
theorem cf_update_last (f : ComplementaryFilter) (d : SensorData) (t : ℝ) :
    (f.update d t).1.last_time = some t := by
  cases hl : f.last_time with
  | none => simp [ComplementaryFilter.update, hl]
  | some tl =>
      simp only [ComplementaryFilter.update, hl]
      split <;> rfl

/-- The complementary update keeps the blend weight unchanged. -/
theorem cf_update_alpha (f : ComplementaryFilter) (d : SensorData) (t : ℝ) :
    (f.update d t).1.alpha = f.alpha := by
  cases hl : f.last_time with
  | none => simp [ComplementaryFilter.update, hl]
  | some tl =>
      simp only [ComplementaryFilter.update, hl]
      split <;> rfl

/-- The complementary update preserves the yaw range invariant. -/
theorem cf_update_yaw (f : ComplementaryFilter) (d : SensorData) (t : ℝ)
    (hf : -180 ≤ f.orientation.yaw ∧ f.orientation.yaw ≤ 180) :
    -180 ≤ (f.update d t).1.orientation.yaw ∧
      (f.update d t).1.orientation.yaw ≤ 180 := by
  cases hl : f.last_time with
  | none => simpa [ComplementaryFilter.update, hl] using hf
  | some tl =>
      simp only [ComplementaryFilter.update, hl]
      split
      · exact hf
      · exact normalizeYaw_mem (f.orientation.yaw + d.gyro_z * (t - tl))

/-- Every orientation emitted by a run of the complementary filter from a
state whose stored yaw is in range has its yaw in the closed interval. -/
theorem runCF_yaw (l : List (SensorData × ℝ)) (f : ComplementaryFilter)
    (hf : -180 ≤ f.orientation.yaw ∧ f.orientation.yaw ≤ 180) :
    ∀ o ∈ runCF f l, -180 ≤ o.yaw ∧ o.yaw ≤ 180 := by
  induction l generalizing f with
  | nil => simp [runCF]
  | cons x rest ih =>
      intro o ho
      rw [runCF] at ho
      rcases List.mem_cons.mp ho with h | h
      · have := cf_update_yaw f x.1 x.2 hf
        rw [h, cf_update_out]
        exact this
      · exact ih (f.update x.1 x.2).1 (cf_update_yaw f x.1 x.2 hf) o h

/-- Every branch of the Kalman orientation update records the current time. -/
theorem kfo_update_last (k : KalmanFilterOrientation) (d : SensorData)
    (t : ℝ) : (k.update d t).1.last_time = some t := by
  cases hl : k.last_time with
  | none => simp [KalmanFilterOrientation.update, hl]
  | some tl =>
      simp only [KalmanFilterOrientation.update, hl]
      split <;> rfl

/-- The scalar Kalman update returns the angle it stores. -/
theorem kf1d_update_out (f : KalmanFilter1D) (a r dt : ℝ) :
    (f.update a r dt).2 = (f.update a r dt).1.angle := rfl

/-- On a state that is zero while fresh, every branch of the Kalman
orientation update returns exactly the angles and yaw of the state it
leaves behind. -/
theorem kfo_update_out (k : KalmanFilterOrientation) (d : SensorData)
    (t : ℝ) (hz : kfoFreshZero k) :
    (k.update d t).2 =
      ⟨(k.update d t).1.pitch_filter.angle, (k.update d t).1.roll_filter.angle,
       (k.update d t).1.yaw⟩ := by
  cases hl : k.last_time with
  | none =>
      obtain ⟨h1, h2, h3⟩ := hz hl
      simp [KalmanFilterOrientation.update, hl, h1, h2, h3]
  | some tl =>
      simp only [KalmanFilterOrientation.update, hl]
      split <;> rfl

/-- The Kalman orientation update preserves the yaw range invariant on the
stored state. -/
theorem kfo_update_yaw_state (k : KalmanFilterOrientation) (d : SensorData)
    (t : ℝ) (hk : -180 ≤ k.yaw ∧ k.yaw ≤ 180) :
    -180 ≤ (k.update d t).1.yaw ∧ (k.update d t).1.yaw ≤ 180 := by
  cases hl : k.last_time with
  | none => simpa [KalmanFilterOrientation.update, hl] using hk
  | some tl =>
      simp only [KalmanFilterOrientation.update, hl]
      split
      · exact hk
      · exact normalizeYaw_mem (k.yaw + d.gyro_z * (t - tl))

/-- The yaw returned by the Kalman orientation update stays in range. -/
theorem kfo_update_yaw_out (k : KalmanFilterOrientation) (d : SensorData)
    (t : ℝ) (hk : -180 ≤ k.yaw ∧ k.yaw ≤ 180) :
    -180 ≤ (k.update d t).2.yaw ∧ (k.update d t).2.yaw ≤ 180 := by
  cases hl : k.last_time with
  | none => simp [KalmanFilterOrientation.update, hl]
  | some tl =>
      simp only [KalmanFilterOrientation.update, hl]
      split
      · exact hk
      · exact normalizeYaw_mem (k.yaw + d.gyro_z * (t - tl))

/-- Every orientation emitted by a run of the Kalman orientation filter from
a state whose stored yaw is in range has its yaw in the closed interval. -/
theorem runKFO_yaw (l : List (SensorData × ℝ)) (k : KalmanFilterOrientation)
    (hk : -180 ≤ k.yaw ∧ k.yaw ≤ 180) :
    ∀ o ∈ runKFO k l, -180 ≤ o.yaw ∧ o.yaw ≤ 180 := by
  induction l generalizing k with
  | nil => simp [runKFO]
  | cons x rest ih =>
      intro o ho
      rw [runKFO] at ho
      rcases List.mem_cons.mp ho with h | h
      · rw [h]
        exact kfo_update_yaw_out k x.1 x.2 hk
      · exact ih (k.update x.1 x.2).1 (kfo_update_yaw_state k x.1 x.2 hk) o h

/-- Evaluation of atan2 on the positive x axis. -/
theorem atan2_zero_one : atan2 0 1 = 0 := by
  rw [atan2, if_pos (by norm_num : (0:ℝ) < 1)]
  norm_num [Real.arctan_zero]

/-- The tilt estimator reads zero pitch and roll on a flat sample. -/
theorem accelAngles_flat (d : SensorData) (hx : d.accel_x = 0)
    (hy : d.accel_y = 0) (hz : d.accel_z = 1) : accelAngles d = (0, 0) := by
  have h1 : (0:ℝ) ^ 2 + 1 ^ 2 = 1 := by norm_num
  simp [accelAngles, hx, hy, hz, h1, Real.sqrt_one, atan2_zero_one, degrees,
    neg_zero]

/-- A weighted average with weight between zero and one lies between its two
endpoints. -/
theorem convex_between (g a w : ℝ) (h0 : 0 ≤ w) (h1 : w ≤ 1) :
    min g a ≤ w * g + (1 - w) * a ∧ w * g + (1 - w) * a ≤ max g a := by
  rcases le_total g a with h | h
  · refine ⟨?_, ?_⟩
    · rw [min_eq_left h]; nlinarith
    · rw [max_eq_right h]; nlinarith
  · refine ⟨?_, ?_⟩
    · rw [min_eq_right h]; nlinarith
    · rw [max_eq_left h]; nlinarith

/-- Claim C8: the tilt estimator is a pure function of the acceleration vector,
computing pitch as degrees of atan2 of accel y against the norm of the x-z
projection and roll as degrees of atan2 of minus accel x against accel z; on
the flat sample with accel (0, 0, 1) it returns pitch 0 and roll 0. -/
theorem tilt_estimator_spec (d : SensorData) :
    accelAngles d =
      (degrees (atan2 d.accel_y (Real.sqrt (d.accel_x ^ 2 + d.accel_z ^ 2))),
       degrees (atan2 (-d.accel_x) d.accel_z)) ∧
    (∀ d2 : SensorData, d.accel_x = d2.accel_x → d.accel_y = d2.accel_y →
      d.accel_z = d2.accel_z → accelAngles d = accelAngles d2) ∧
    accelAngles ⟨0, 0, 1, 0, 0, 0, 25⟩ = (0, 0) := by
  refine ⟨rfl, ?_, ?_⟩
  · intro d2 hx hy hz
    simp [accelAngles, hx, hy, hz]
  · exact accelAngles_flat _ rfl rfl rfl

/-- Witness for C8 at two concrete samples sharing an acceleration vector. -/
theorem tilt_estimator_spec_witness :
    accelAngles ⟨0, 0, 1, 7, 8, 9, 20⟩ = accelAngles ⟨0, 0, 1, 0, 0, 0, 25⟩ :=
  (tilt_estimator_spec ⟨0, 0, 1, 7, 8, 9, 20⟩).2.1 ⟨0, 0, 1, 0, 0, 0, 25⟩
    rfl rfl rfl

/-- Claim C6: resetting a complementary filter and updating once gives exactly the
result of the first update of a freshly constructed filter with the same
blend weight, and that result seeds pitch and roll from the accelerometer
tilt with yaw zero. -/
theorem cf_reset_first_update (f : ComplementaryFilter) (d : SensorData)
    (t : ℝ) :
    f.reset.update d t = (mkComplementaryFilter f.alpha).update d t ∧
    (f.reset.update d t).2 = ⟨(accelAngles d).1, (accelAngles d).2, 0⟩ := by
  refine ⟨rfl, ?_⟩
  simp [ComplementaryFilter.reset, ComplementaryFilter.update]

/-- Claim C9: the first update of the Kalman orientation filter, on any state with
no recorded previous time, returns the zero orientation whatever the sample
holds, changing only the bookkeeping; the complementary filter instead seeds
its first output from the accelerometer tilt. -/
theorem kfo_first_update (k : KalmanFilterOrientation) (d : SensorData)
    (t : ℝ) (h : k.last_time = none) :
    k.update d t = ({ k with last_time := some t }, ⟨0, 0, 0⟩) ∧
    ∀ (a : ℝ) (d2 : SensorData) (t2 : ℝ),
      ((mkComplementaryFilter a).update d2 t2).2 =
        ⟨(accelAngles d2).1, (accelAngles d2).2, 0⟩ := by
  refine ⟨?_, ?_⟩
  · simp [KalmanFilterOrientation.update, h]
  · intro a d2 t2
    simp [mkComplementaryFilter, ComplementaryFilter.update]

/-- Witness for C9 on a freshly constructed Kalman orientation filter and a
sample with nonzero readings. -/
theorem kfo_first_update_witness :
    (mkKalmanFilterOrientation 0.001 0.03).last_time = none ∧
    ((mkKalmanFilterOrientation 0.001 0.03).update ⟨1, 2, 3, 4, 5, 6, 7⟩ 10 =
      ({ mkKalmanFilterOrientation 0.001 0.03 with last_time := some 10 },
       ⟨0, 0, 0⟩) ∧
     ∀ (a : ℝ) (d2 : SensorData) (t2 : ℝ),
       ((mkComplementaryFilter a).update d2 t2).2 =
         ⟨(accelAngles d2).1, (accelAngles d2).2, 0⟩) :=
  ⟨rfl, kfo_first_update (mkKalmanFilterOrientation 0.001 0.03)
    ⟨1, 2, 3, 4, 5, 6, 7⟩ 10 rfl⟩

/-- Claim C10: reset replaces both axis filters by filters with the module default
parameters and zeroes yaw and the recorded time; when the orientation filter
was constructed with non-default noise parameters, the process and
measurement noise of its axis filters change across reset. -/
theorem kfo_reset_defaults (k : KalmanFilterOrientation) (pn mn : ℝ)
    (hq : pn ≠ 0.001) (hr : mn ≠ 0.03) :
    k.reset = ⟨mkKalmanFilter1D 0.001 0.03 1, mkKalmanFilter1D 0.001 0.03 1,
      0, none⟩ ∧
    (mkKalmanFilterOrientation pn mn).reset.pitch_filter.Q ≠
      (mkKalmanFilterOrientation pn mn).pitch_filter.Q ∧
    (mkKalmanFilterOrientation pn mn).reset.roll_filter.Q ≠
      (mkKalmanFilterOrientation pn mn).roll_filter.Q ∧
    (mkKalmanFilterOrientation pn mn).reset.pitch_filter.R ≠
      (mkKalmanFilterOrientation pn mn).pitch_filter.R ∧
    (mkKalmanFilterOrientation pn mn).reset.roll_filter.R ≠
      (mkKalmanFilterOrientation pn mn).roll_filter.R := by
  refine ⟨rfl, ?_, ?_, ?_, ?_⟩
  · simpa [KalmanFilterOrientation.reset, mkKalmanFilterOrientation,
      mkKalmanFilter1D] using Ne.symm hq
  · simpa [KalmanFilterOrientation.reset, mkKalmanFilterOrientation,
      mkKalmanFilter1D] using Ne.symm hq
  · simpa [KalmanFilterOrientation.reset, mkKalmanFilterOrientation,
      mkKalmanFilter1D] using Ne.symm hr
  · simpa [KalmanFilterOrientation.reset, mkKalmanFilterOrientation,
      mkKalmanFilter1D] using Ne.symm hr

/-- Witness for C10 with noise parameters 0.002 and 0.05. -/
theorem kfo_reset_defaults_witness :
    ((0.002 : ℝ) ≠ 0.001 ∧ (0.05 : ℝ) ≠ 0.03) ∧
    ((mkKalmanFilterOrientation 1 1).reset =
      ⟨mkKalmanFilter1D 0.001 0.03 1, mkKalmanFilter1D 0.001 0.03 1,
       0, none⟩ ∧
     (mkKalmanFilterOrientation 0.002 0.05).reset.pitch_filter.Q ≠
       (mkKalmanFilterOrientation 0.002 0.05).pitch_filter.Q ∧
     (mkKalmanFilterOrientation 0.002 0.05).reset.roll_filter.Q ≠
       (mkKalmanFilterOrientation 0.002 0.05).roll_filter.Q ∧
     (mkKalmanFilterOrientation 0.002 0.05).reset.pitch_filter.R ≠
       (mkKalmanFilterOrientation 0.002 0.05).pitch_filter.R ∧
     (mkKalmanFilterOrientation 0.002 0.05).reset.roll_filter.R ≠
       (mkKalmanFilterOrientation 0.002 0.05).roll_filter.R) :=
  ⟨⟨by norm_num, by norm_num⟩,
   kfo_reset_defaults (mkKalmanFilterOrientation 1 1) 0.002 0.05
     (by norm_num) (by norm_num)⟩

/-- Claim C4 counterexample: on the default configuration the first computed gain
is the ratio 1.001 to 1.031, because the error covariance is increased by
the process noise before the gain is formed; it differs from 1 over 1.03. -/
theorem kalman_default_gain_cex :
    ((mkKalmanFilter1D 0.001 0.03 1).update 5 2 0.02).1.K ≠ 1 / 1.03 := by
  simp only [mkKalmanFilter1D, KalmanFilter1D.update]
  norm_num

/-- Claim C4 amended: a single update of a scalar Kalman filter in its initial
configuration with Q 0.001, R 0.03 and P 1 computes the gain
K = 1.001 / 1.031 (approximately 0.9709), for every measurement, rate and
time step. -/
theorem kalman_default_gain (a r dt : ℝ) :
    ((mkKalmanFilter1D 0.001 0.03 1).update a r dt).1.K = 1.001 / 1.031 := by
  simp only [mkKalmanFilter1D, KalmanFilter1D.update]
  norm_num

/-- The scalar Kalman update never changes the noise parameters. -/
theorem kf1d_update_QR (f : KalmanFilter1D) (a r dt : ℝ) :
    (f.update a r dt).1.Q = f.Q ∧ (f.update a r dt).1.R = f.R := ⟨rfl, rfl⟩

/-- With positive noise parameters, the scalar Kalman update keeps the error
covariance non-negative. -/
theorem kf1d_update_P_nonneg (f : KalmanFilter1D) (a r dt : ℝ)
    (hQ : 0 < f.Q) (hR : 0 < f.R) (hP : 0 ≤ f.P) :
    0 ≤ (f.update a r dt).1.P := by
  have hP1 : 0 < f.P + f.Q := by linarith
  have hden : 0 < f.P + f.Q + f.R := by linarith
  have hK : (f.P + f.Q) / (f.P + f.Q + f.R) < 1 :=
    (div_lt_one hden).mpr (by linarith)
  show 0 ≤ (1 - (f.P + f.Q) / (f.P + f.Q + f.R)) * (f.P + f.Q)
  exact mul_nonneg (by linarith) hP1.le

/-- A run of scalar Kalman updates keeps the noise parameters and keeps the
error covariance non-negative. -/
theorem runKF1D_inv (l : List (ℝ × ℝ × ℝ)) (f : KalmanFilter1D)
    (hQ : 0 < f.Q) (hR : 0 < f.R) (hP : 0 ≤ f.P) :
    (runKF1D f l).Q = f.Q ∧ (runKF1D f l).R = f.R ∧ 0 ≤ (runKF1D f l).P := by
  induction l generalizing f with
  | nil => exact ⟨rfl, rfl, hP⟩
  | cons x rest ih =>
      rw [runKF1D]
      have h1 : (f.update x.1 x.2.1 x.2.2).1.Q = f.Q := rfl
      have h2 : (f.update x.1 x.2.1 x.2.2).1.R = f.R := rfl
      obtain ⟨ha, hb, hc⟩ := ih (f.update x.1 x.2.1 x.2.2).1
        (h1 ▸ hQ) (h2 ▸ hR) (kf1d_update_P_nonneg f x.1 x.2.1 x.2.2 hQ hR hP)
      exact ⟨ha.trans h1, hb.trans h2, hc⟩

/-- Claim C3: on any state with positive Q and R and non-negative P, after any
sequence of scalar Kalman updates the gain denominator of the next update is
strictly positive, the gain it computes lies in the half-open unit interval,
and the error covariance it leaves behind is again non-negative. -/
theorem kalman_gain_bound (f : KalmanFilter1D) (hQ : 0 < f.Q) (hR : 0 < f.R)
    (hP : 0 ≤ f.P) (l : List (ℝ × ℝ × ℝ)) (a r dt : ℝ) :
    0 < (runKF1D f l).P + (runKF1D f l).Q + (runKF1D f l).R ∧
    0 ≤ ((runKF1D f l).update a r dt).1.K ∧
    ((runKF1D f l).update a r dt).1.K < 1 ∧
    0 ≤ ((runKF1D f l).update a r dt).1.P := by
  obtain ⟨hq, hr2, hp⟩ := runKF1D_inv l f hQ hR hP
  have hgQ : 0 < (runKF1D f l).Q := hq ▸ hQ
  have hgR : 0 < (runKF1D f l).R := hr2 ▸ hR
  have hP1 : 0 < (runKF1D f l).P + (runKF1D f l).Q := by linarith
  have hden : 0 < (runKF1D f l).P + (runKF1D f l).Q + (runKF1D f l).R := by
    linarith
  have hKval : ((runKF1D f l).update a r dt).1.K =
      ((runKF1D f l).P + (runKF1D f l).Q) /
        ((runKF1D f l).P + (runKF1D f l).Q + (runKF1D f l).R) := rfl
  refine ⟨hden, ?_, ?_, ?_⟩
  · rw [hKval]
    exact div_nonneg hP1.le hden.le
  · rw [hKval]
    exact (div_lt_one hden).mpr (by linarith)
  · exact kf1d_update_P_nonneg (runKF1D f l) a r dt hgQ hgR hp

/-- Witness for C3 on the default configuration after one recorded update. -/
theorem kalman_gain_bound_witness :
    (0 < (mkKalmanFilter1D 0.001 0.03 1).Q ∧
     0 < (mkKalmanFilter1D 0.001 0.03 1).R ∧
     0 ≤ (mkKalmanFilter1D 0.001 0.03 1).P) ∧
    (0 < (runKF1D (mkKalmanFilter1D 0.001 0.03 1) [(3, 2, 0.02)]).P +
        (runKF1D (mkKalmanFilter1D 0.001 0.03 1) [(3, 2, 0.02)]).Q +
        (runKF1D (mkKalmanFilter1D 0.001 0.03 1) [(3, 2, 0.02)]).R ∧
     0 ≤ ((runKF1D (mkKalmanFilter1D 0.001 0.03 1) [(3, 2, 0.02)]).update
        1 2 0.02).1.K ∧
     ((runKF1D (mkKalmanFilter1D 0.001 0.03 1) [(3, 2, 0.02)]).update
        1 2 0.02).1.K < 1 ∧
     0 ≤ ((runKF1D (mkKalmanFilter1D 0.001 0.03 1) [(3, 2, 0.02)]).update
        1 2 0.02).1.P) :=
  ⟨⟨by norm_num [mkKalmanFilter1D], by norm_num [mkKalmanFilter1D],
    by norm_num [mkKalmanFilter1D]⟩,
   kalman_gain_bound (mkKalmanFilter1D 0.001 0.03 1)
     (by norm_num [mkKalmanFilter1D]) (by norm_num [mkKalmanFilter1D])
     (by norm_num [mkKalmanFilter1D]) [(3, 2, 0.02)] 1 2 0.02⟩

/-- Claim C5: on a non-first complementary update with a valid time step and blend
weight strictly between zero and one, the returned pitch is exactly the
weighted average of the gyro-integrated pitch and the accelerometer pitch
and lies between the two; likewise for roll. -/
theorem cf_blend_convex (f : ComplementaryFilter) (d : SensorData)
    (now tl : ℝ) (hl : f.last_time = some tl)
    (ha : 0 < f.alpha ∧ f.alpha < 1)
    (hdt : 0 < now - tl ∧ now - tl ≤ 1) :
    ((f.update d now).2.pitch =
       f.alpha * (f.orientation.pitch + d.gyro_x * (now - tl)) +
         (1 - f.alpha) * (accelAngles d).1 ∧
     min (f.orientation.pitch + d.gyro_x * (now - tl)) (accelAngles d).1 ≤
       (f.update d now).2.pitch ∧
     (f.update d now).2.pitch ≤
       max (f.orientation.pitch + d.gyro_x * (now - tl)) (accelAngles d).1) ∧
    ((f.update d now).2.roll =
       f.alpha * (f.orientation.roll + d.gyro_y * (now - tl)) +
         (1 - f.alpha) * (accelAngles d).2 ∧
     min (f.orientation.roll + d.gyro_y * (now - tl)) (accelAngles d).2 ≤
       (f.update d now).2.roll ∧
     (f.update d now).2.roll ≤
       max (f.orientation.roll + d.gyro_y * (now - tl)) (accelAngles d).2) := by
  have hcond : ¬(now - tl ≤ 0 ∨ 1 < now - tl) := by
    push_neg
    exact ⟨by linarith, by linarith⟩
  have hupd : (f.update d now).2 =
      ⟨f.alpha * (f.orientation.pitch + d.gyro_x * (now - tl)) +
         (1 - f.alpha) * (accelAngles d).1,
       f.alpha * (f.orientation.roll + d.gyro_y * (now - tl)) +
         (1 - f.alpha) * (accelAngles d).2,
       normalizeYaw (f.orientation.yaw + d.gyro_z * (now - tl))⟩ := by
    simp only [ComplementaryFilter.update, hl]
    rw [if_neg hcond]
  rw [hupd]
  exact ⟨⟨rfl,
      (convex_between (f.orientation.pitch + d.gyro_x * (now - tl))
        (accelAngles d).1 f.alpha ha.1.le ha.2.le).1,
      (convex_between (f.orientation.pitch + d.gyro_x * (now - tl))
        (accelAngles d).1 f.alpha ha.1.le ha.2.le).2⟩,
    ⟨rfl,
      (convex_between (f.orientation.roll + d.gyro_y * (now - tl))
        (accelAngles d).2 f.alpha ha.1.le ha.2.le).1,
      (convex_between (f.orientation.roll + d.gyro_y * (now - tl))
        (accelAngles d).2 f.alpha ha.1.le ha.2.le).2⟩⟩

/-- Witness for C5 on the fixture filter, the flat sample and a time step of
one half second. -/
theorem cf_blend_convex_witness :
    (midFilter.last_time = some 0 ∧
     (0 < midFilter.alpha ∧ midFilter.alpha < 1) ∧
     (0 < (1:ℝ)/2 - 0 ∧ (1:ℝ)/2 - 0 ≤ 1)) ∧
    (((midFilter.update flatSample (1/2)).2.pitch =
        midFilter.alpha *
          (midFilter.orientation.pitch + flatSample.gyro_x * (1/2 - 0)) +
          (1 - midFilter.alpha) * (accelAngles flatSample).1 ∧
      min (midFilter.orientation.pitch + flatSample.gyro_x * (1/2 - 0))
          (accelAngles flatSample).1 ≤
        (midFilter.update flatSample (1/2)).2.pitch ∧
      (midFilter.update flatSample (1/2)).2.pitch ≤
        max (midFilter.orientation.pitch + flatSample.gyro_x * (1/2 - 0))
          (accelAngles flatSample).1) ∧
     ((midFilter.update flatSample (1/2)).2.roll =
        midFilter.alpha *
          (midFilter.orientation.roll + flatSample.gyro_y * (1/2 - 0)) +
          (1 - midFilter.alpha) * (accelAngles flatSample).2 ∧
      min (midFilter.orientation.roll + flatSample.gyro_y * (1/2 - 0))
          (accelAngles flatSample).2 ≤
        (midFilter.update flatSample (1/2)).2.roll ∧
      (midFilter.update flatSample (1/2)).2.roll ≤
        max (midFilter.orientation.roll + flatSample.gyro_y * (1/2 - 0))
          (accelAngles flatSample).2)) :=
  ⟨⟨rfl, ⟨by norm_num [midFilter], by norm_num [midFilter]⟩,
    ⟨by norm_num, by norm_num⟩⟩,
   cf_blend_convex midFilter flatSample (1/2) 0 rfl
     ⟨by norm_num [midFilter], by norm_num [midFilter]⟩
     ⟨by norm_num, by norm_num⟩⟩

/-- An updated Kalman orientation state is never fresh. -/
theorem kfo_update_fresh (k : KalmanFilterOrientation) (d : SensorData)
    (t : ℝ) : kfoFreshZero (k.update d t).1 := by
  intro h
  rw [kfo_update_last k d t] at h
  simp at h

/-- A freshly constructed Kalman orientation filter is zero while fresh. -/
theorem mkKFO_fresh (pn mn : ℝ) :
    kfoFreshZero (mkKalmanFilterOrientation pn mn) := fun _ => ⟨rfl, rfl, rfl⟩

/-- Every state reached by running the Kalman orientation filter from a
state that is zero while fresh is itself zero while fresh. -/
theorem runKFOstate_fresh (l : List (SensorData × ℝ))
    (k : KalmanFilterOrientation) (hk : kfoFreshZero k) :
    kfoFreshZero (runKFOstate k l) := by
  induction l generalizing k with
  | nil => exact hk
  | cons x rest ih =>
      rw [runKFOstate]
      exact ih _ (kfo_update_fresh k x.1 x.2)

/-- Claim C2: for both filters, when the step from the previous update time is
non-positive or above one second, the update returns exactly the orientation
returned by the immediately preceding call and changes nothing in the state
except the recorded time.  The Kalman state is taken reachable: a run from a
freshly constructed filter. -/
theorem stale_dt_returns_previous (cf : ComplementaryFilter) (pn mn : ℝ)
    (l : List (SensorData × ℝ)) (d1 d2 : SensorData) (t1 t2 : ℝ)
    (h : t2 - t1 ≤ 0 ∨ 1 < t2 - t1) :
    (cf.update d1 t1).1.update d2 t2 =
      ({ (cf.update d1 t1).1 with last_time := some t2 },
       (cf.update d1 t1).2) ∧
    ((runKFOstate (mkKalmanFilterOrientation pn mn) l).update d1 t1).1.update
        d2 t2 =
      ({ ((runKFOstate (mkKalmanFilterOrientation pn mn) l).update d1 t1).1
          with last_time := some t2 },
       ((runKFOstate (mkKalmanFilterOrientation pn mn) l).update d1 t1).2) := by
  constructor
  · set p := cf.update d1 t1 with hp
    have hlast : p.1.last_time = some t1 := by
      rw [hp]; exact cf_update_last cf d1 t1
    have hout : p.2 = p.1.orientation := by
      rw [hp]; exact cf_update_out cf d1 t1
    rw [hout]
    simp only [ComplementaryFilter.update, hlast]
    rw [if_pos h]
  · have hz : kfoFreshZero (runKFOstate (mkKalmanFilterOrientation pn mn) l) :=
      runKFOstate_fresh l _ (mkKFO_fresh pn mn)
    set q := (runKFOstate (mkKalmanFilterOrientation pn mn) l).update d1 t1
      with hq
    have hlast : q.1.last_time = some t1 := by
      rw [hq]; exact kfo_update_last _ d1 t1
    have hout : q.2 =
        ⟨q.1.pitch_filter.angle, q.1.roll_filter.angle, q.1.yaw⟩ := by
      rw [hq]; exact kfo_update_out _ d1 t1 hz
    rw [hout]
    simp only [KalmanFilterOrientation.update, hlast]
    rw [if_pos h]

/-- Witness for C2: the preceding call at time zero, then a call with a time
step of one and a half seconds. -/
theorem stale_dt_returns_previous_witness :
    ((1.5:ℝ) - 0 ≤ 0 ∨ 1 < (1.5:ℝ) - 0) ∧
    (((mkComplementaryFilter 0.98).update flatSample 0).1.update flatSample
        1.5 =
      ({ ((mkComplementaryFilter 0.98).update flatSample 0).1 with
          last_time := some 1.5 },
       ((mkComplementaryFilter 0.98).update flatSample 0).2) ∧
     ((runKFOstate (mkKalmanFilterOrientation 0.001 0.03) []).update
        flatSample 0).1.update flatSample 1.5 =
      ({ ((runKFOstate (mkKalmanFilterOrientation 0.001 0.03) []).update
            flatSample 0).1 with last_time := some 1.5 },
       ((runKFOstate (mkKalmanFilterOrientation 0.001 0.03) []).update
          flatSample 0).2)) :=
  ⟨by norm_num,
   stale_dt_returns_previous (mkComplementaryFilter 0.98) 0.001 0.03 []
     flatSample flatSample 0 1.5 (by norm_num)⟩

/-- Claim C1 counterexample: a two-call complementary run whose second returned
orientation has yaw exactly 180, so the returned yaw is not always strictly
below 180.  The second call integrates 360 degrees per second over half a
second from yaw zero, and the normalization loops leave 180 untouched. -/
theorem yaw_strict_cex :
    (runCF (mkComplementaryFilter (1/2)) [(spinSample, 0), (spinSample, 1/2)]
        ).getD 1 ⟨0, 0, 0⟩ = ⟨0, 0, 180⟩ ∧
    ¬ ((runCF (mkComplementaryFilter (1/2))
        [(spinSample, 0), (spinSample, 1/2)]).getD 1 ⟨0, 0, 0⟩).yaw < 180 := by
  have haa : accelAngles spinSample = (0, 0) :=
    accelAngles_flat spinSample rfl rfl rfl
  have hstep1 : (mkComplementaryFilter (1/2)).update spinSample 0 =
      (⟨1/2, ⟨0, 0, 0⟩, some 0⟩, ⟨0, 0, 0⟩) := by
    simp [mkComplementaryFilter, ComplementaryFilter.update, haa]
  have h180 : normalizeYaw 180 = 180 :=
    normalizeYaw_id 180 (by norm_num) (by norm_num)
  have hgx : spinSample.gyro_x = 0 := rfl
  have hgy : spinSample.gyro_y = 0 := rfl
  have hgz : spinSample.gyro_z = 360 := rfl
  have hstep2 : (⟨1/2, ⟨0, 0, 0⟩, some 0⟩ : ComplementaryFilter).update
      spinSample (1/2) = (⟨1/2, ⟨0, 0, 180⟩, some (1/2)⟩, ⟨0, 0, 180⟩) := by
    simp only [ComplementaryFilter.update]
    rw [if_neg (by norm_num : ¬((1:ℝ)/2 - 0 ≤ 0 ∨ 1 < (1:ℝ)/2 - 0))]
    simp [haa, hgx, hgy, hgz]
    norm_num [h180]
  have hrun : runCF (mkComplementaryFilter (1/2))
      [(spinSample, 0), (spinSample, 1/2)] = [⟨0, 0, 0⟩, ⟨0, 0, 180⟩] := by
    rw [runCF, hstep1]
    rw [runCF, hstep2]
    rw [runCF]
  rw [hrun]
  exact ⟨rfl, by norm_num⟩

/-- Claim C1 amended: along every update sequence of either filter started from a
freshly constructed state, the yaw of every returned orientation lies in the
closed interval from -180 to 180 (the bound 180 itself is attainable). -/
theorem yaw_closed_range (a pn mn : ℝ) (l : List (SensorData × ℝ)) :
    (∀ o ∈ runCF (mkComplementaryFilter a) l,
      -180 ≤ o.yaw ∧ o.yaw ≤ 180) ∧
    (∀ o ∈ runKFO (mkKalmanFilterOrientation pn mn) l,
      -180 ≤ o.yaw ∧ o.yaw ≤ 180) :=
  ⟨runCF_yaw l (mkComplementaryFilter a) (by norm_num [mkComplementaryFilter]),
   runKFO_yaw l (mkKalmanFilterOrientation pn mn)
     (by norm_num [mkKalmanFilterOrientation])⟩

/-- Witness for C1 on a one-element run of the complementary filter. -/
theorem yaw_closed_range_witness :
    Orientation.mk 0 0 0 ∈
      runCF (mkComplementaryFilter (1/2)) [(flatSample, 0)] ∧
    (-180 ≤ (Orientation.mk 0 0 0).yaw ∧ (Orientation.mk 0 0 0).yaw ≤ 180) :=
  have hmem : Orientation.mk 0 0 0 ∈
      runCF (mkComplementaryFilter (1/2)) [(flatSample, 0)] := by
    have haa : accelAngles flatSample = (0, 0) :=
      accelAngles_flat flatSample rfl rfl rfl
    simp [runCF, mkComplementaryFilter, ComplementaryFilter.update, haa]
  ⟨hmem, (yaw_closed_range (1/2) 0.001 0.03 [(flatSample, 0)]).1 ⟨0, 0, 0⟩ hmem⟩

/-- The calibration loop accumulates exactly the per-axis sums of the scaled
readings on top of its initial accumulator. -/
theorem calibLoop_sums (st : MPUState) (rs : List RawSample)
    (init : CalibSums) :
    rs.foldl (calibStep st) init =
      ⟨init.ax + (rs.map fun r => r.ax / st.accel_scale).sum,
       init.ay + (rs.map fun r => r.ay / st.accel_scale).sum,
       init.az + (rs.map fun r => r.az / st.accel_scale).sum,
       init.gx + (rs.map fun r => r.gx / st.gyro_scale).sum,
       init.gy + (rs.map fun r => r.gy / st.gyro_scale).sum,
       init.gz + (rs.map fun r => r.gz / st.gyro_scale).sum⟩ := by
  induction rs generalizing init with
  | nil => simp
  | cons x rest ih =>
      rw [List.foldl_cons, ih]
      simp only [List.map_cons, List.sum_cons, calibStep]
      rw [CalibSums.mk.injEq]
      refine ⟨by ring, by ring, by ring, by ring, by ring, by ring⟩

/-- Claim C7: calibration over at least one reading sets the gyro offsets to the
per-axis means of the scaled gyro readings and the accel offsets to the
per-axis means of the scaled accel readings with one g subtracted on Z; a
constant synthetic stream at unit scales yields the offsets of the claim,
overwriting any prior offsets. -/
theorem calibrate_sets_means (st : MPUState) (rs : List RawSample)
    (h : 1 ≤ rs.length) :
    (st.calibrate rs).accel_offset =
      ((rs.map fun r => r.ax / st.accel_scale).sum / rs.length,
       (rs.map fun r => r.ay / st.accel_scale).sum / rs.length,
       (rs.map fun r => r.az / st.accel_scale).sum / rs.length - 1) ∧
    (st.calibrate rs).gyro_offset =
      ((rs.map fun r => r.gx / st.gyro_scale).sum / rs.length,
       (rs.map fun r => r.gy / st.gyro_scale).sum / rs.length,
       (rs.map fun r => r.gz / st.gyro_scale).sum / rs.length) ∧
    ∀ (N : ℕ) (ao go : ℝ × ℝ × ℝ), 1 ≤ N →
      MPUState.calibrate ⟨1, 1, ao, go⟩
          (List.replicate N ⟨0.01, -0.02, 1.03, 30, 0.5, -0.3, 0.1⟩) =
        ⟨1, 1, (0.01, -0.02, 0.03), (0.5, -0.3, 0.1)⟩ := by
  refine ⟨?_, ?_, ?_⟩
  · rw [MPUState.calibrate, calibLoop_sums]
    simp
  · rw [MPUState.calibrate, calibLoop_sums]
    simp
  · intro N ao go hN
    have hN0 : (N:ℝ) ≠ 0 := Nat.cast_ne_zero.mpr (by omega)
    rw [MPUState.calibrate, calibLoop_sums]
    simp only [List.map_replicate, List.sum_replicate, List.length_replicate,
      smul_eq_mul, nsmul_eq_mul]
    rw [MPUState.mk.injEq]
    refine ⟨rfl, rfl, ?_, ?_⟩
    · rw [Prod.mk.injEq, Prod.mk.injEq]
      refine ⟨?_, ?_, ?_⟩ <;> field_simp <;> ring
    · rw [Prod.mk.injEq, Prod.mk.injEq]
      refine ⟨?_, ?_, ?_⟩ <;> field_simp <;> ring

/-- Witness for C7 on a one-element reading list at unit scales. -/
theorem calibrate_sets_means_witness :
    1 ≤ ([⟨1, 2, 3, 4, 5, 6, 7⟩] : List RawSample).length ∧
    ((MPUState.calibrate ⟨1, 1, (0, 0, 0), (0, 0, 0)⟩
        [⟨1, 2, 3, 4, 5, 6, 7⟩]).accel_offset =
      ((([⟨1, 2, 3, 4, 5, 6, 7⟩] : List RawSample).map
          fun r => r.ax / (⟨1, 1, (0, 0, 0), (0, 0, 0)⟩ : MPUState).accel_scale).sum /
          ([⟨1, 2, 3, 4, 5, 6, 7⟩] : List RawSample).length,
       (([⟨1, 2, 3, 4, 5, 6, 7⟩] : List RawSample).map
          fun r => r.ay / (⟨1, 1, (0, 0, 0), (0, 0, 0)⟩ : MPUState).accel_scale).sum /
          ([⟨1, 2, 3, 4, 5, 6, 7⟩] : List RawSample).length,
       (([⟨1, 2, 3, 4, 5, 6, 7⟩] : List RawSample).map
          fun r => r.az / (⟨1, 1, (0, 0, 0), (0, 0, 0)⟩ : MPUState).accel_scale).sum /
          ([⟨1, 2, 3, 4, 5, 6, 7⟩] : List RawSample).length - 1) ∧
     (MPUState.calibrate ⟨1, 1, (0, 0, 0), (0, 0, 0)⟩
        [⟨1, 2, 3, 4, 5, 6, 7⟩]).gyro_offset =
      ((([⟨1, 2, 3, 4, 5, 6, 7⟩] : List RawSample).map
          fun r => r.gx / (⟨1, 1, (0, 0, 0), (0, 0, 0)⟩ : MPUState).gyro_scale).sum /
          ([⟨1, 2, 3, 4, 5, 6, 7⟩] : List RawSample).length,
       (([⟨1, 2, 3, 4, 5, 6, 7⟩] : List RawSample).map
          fun r => r.gy / (⟨1, 1, (0, 0, 0), (0, 0, 0)⟩ : MPUState).gyro_scale).sum /
          ([⟨1, 2, 3, 4, 5, 6, 7⟩] : List RawSample).length,
       (([⟨1, 2, 3, 4, 5, 6, 7⟩] : List RawSample).map
          fun r => r.gz / (⟨1, 1, (0, 0, 0), (0, 0, 0)⟩ : MPUState).gyro_scale).sum /
          ([⟨1, 2, 3, 4, 5, 6, 7⟩] : List RawSample).length) ∧
     ∀ (N : ℕ) (ao go : ℝ × ℝ × ℝ), 1 ≤ N →
       MPUState.calibrate ⟨1, 1, ao, go⟩
           (List.replicate N ⟨0.01, -0.02, 1.03, 30, 0.5, -0.3, 0.1⟩) =
         ⟨1, 1, (0.01, -0.02, 0.03), (0.5, -0.3, 0.1)⟩) :=
  ⟨by norm_num,
   calibrate_sets_means ⟨1, 1, (0, 0, 0), (0, 0, 0)⟩ [⟨1, 2, 3, 4, 5, 6, 7⟩]
     (by norm_num)⟩

end SensorFusion
